import Mathlib

/-! Verification development for the capture/publish/broadcast core of
`src/Client/web_streaming.py` (class `CameraInferenceService` and the HTTP
handler `SimpleHandler`).

The shallow embedding follows the Python source:

* Encoded frames (`bytes` in Python) are modelled as lists of byte values
  (`List Nat`).
* The hub state guarded by `self._condition` consists of
  `_latest_original : Optional[bytes]`, `_frame_seq : int` (a Python integer,
  never negative, here `Nat`) and the `threading.Event` `_stop` (here a
  `Bool`).
* `_loop`'s critical section (lines 109-112) is `publish`; `stop`'s
  `self._stop.set()` (line 59) is `stopHub`.
* One iteration of `frame_generator`'s outer `while` (lines 74-86), observed
  at the hub snapshot at which its inner wait loop is decided, is
  `frameGeneratorStep`; a whole session over a trace of snapshots is
  `frameGeneratorRun`.  The per-session cursor `last_seq` starts at the
  sentinel `-1`, so it lives in `Int` while `_frame_seq` lives in `Nat`.
-/

/-- Encoded JPEG frames are opaque byte buffers. -/
abbrev Bytes : Type := List Nat

/-- The shared state of `CameraInferenceService` that is read and written
under `self._condition`: `_latest_original`, `_frame_seq`, and the
`threading.Event` `_stop` (`web_streaming.py` lines 41-44). -/
structure HubState where
  latest_original : Option Bytes
  frame_seq : Nat
  stop_set : Bool
  deriving DecidableEq

/-- Hub state at service construction: no frame yet, sequence 0, not
stopped (`__init__`, lines 41-44). -/
def initHub : HubState := ⟨none, 0, false⟩

/-- The publish step of `_loop` (lines 109-112): store the encoded buffer as
`_latest_original`, increment `_frame_seq` by one, `notify_all`. -/
def publish (s : HubState) (f : Bytes) : HubState :=
  ⟨some f, s.frame_seq + 1, s.stop_set⟩

/-- The hub-visible effect of `stop()` (line 59): `self._stop.set()`. -/
def stopHub (s : HubState) : HubState :=
  ⟨s.latest_original, s.frame_seq, true⟩

/-- The operations the service ever performs on the hub state. -/
inductive HubOp where
  | publishOp : Bytes → HubOp
  | stopOp : HubOp
  deriving DecidableEq

/-- Apply one hub operation. -/
def applyOp (s : HubState) : HubOp → HubState
  | .publishOp f => publish s f
  | .stopOp => stopHub s

/-- Apply a sequence of hub operations in order. -/
def runOps (s : HubState) (ops : List HubOp) : HubState :=
  ops.foldl applyOp s

theorem runOps_nil (s : HubState) : runOps s [] = s := rfl

theorem runOps_cons (s : HubState) (op : HubOp) (ops : List HubOp) :
    runOps s (op :: ops) = runOps (applyOp s op) ops := rfl

theorem applyOp_frame_seq_le (s : HubState) (op : HubOp) :
    s.frame_seq ≤ (applyOp s op).frame_seq := by
  cases op with
  | publishOp f => exact Nat.le_succ _
  | stopOp => exact Nat.le_refl _

theorem runOps_frame_seq_le (ops : List HubOp) (s : HubState) :
    s.frame_seq ≤ (runOps s ops).frame_seq := by
  induction ops generalizing s with
  | nil => exact Nat.le_refl _
  | cons op ops ih =>
      exact Nat.le_trans (applyOp_frame_seq_le s op) (ih (applyOp s op))

theorem runOps_publishes_frame_seq (fs : List Bytes) (s : HubState) :
    (runOps s (fs.map HubOp.publishOp)).frame_seq = s.frame_seq + fs.length := by
  induction fs generalizing s with
  | nil => rfl
  | cons f fs ih =>
      show (runOps (publish s f) (fs.map HubOp.publishOp)).frame_seq = _
      rw [ih (publish s f)]
      show s.frame_seq + 1 + fs.length = s.frame_seq + (fs.length + 1)
      omega

/-- C1. Each publish stores the new frame as current and increments the
hub's `_frame_seq` by exactly 1; no hub operation ever decreases
`_frame_seq`, so it is monotone over any operation sequence, and over a
sequence of `n` publishes it rises by exactly `n` (strictly increasing,
one step per call). -/
theorem publish_increments_version (s : HubState) (f : Bytes) (op : HubOp)
    (ops : List HubOp) (fs : List Bytes) :
    (publish s f).latest_original = some f ∧
    (publish s f).frame_seq = s.frame_seq + 1 ∧
    s.frame_seq ≤ (applyOp s op).frame_seq ∧
    s.frame_seq ≤ (runOps s ops).frame_seq ∧
    (runOps s (fs.map HubOp.publishOp)).frame_seq = s.frame_seq + fs.length := by
  exact ⟨rfl, rfl, applyOp_frame_seq_le s op, runOps_frame_seq_le ops s,
    runOps_publishes_frame_seq fs s⟩

/-- The outcome of one iteration of `frame_generator`'s outer `while`
(lines 74-86), evaluated at the hub snapshot at which the inner wait loop
is decided:

* `blockedStep`: the inner wait condition `last_seq == self._frame_seq and
  not self._stop.is_set()` (line 76) still holds, so the iteration is still
  inside `self._condition.wait(timeout=1.0)` and produces nothing; the timed
  wait re-checks the condition against a later snapshot.
* `stopSignal`: `_stop` is set, so either the outer `while` guard (line 74)
  fails or the `break` at line 79 fires; the generator ends.
* `retrySignal`: `_latest_original` is still `None` (line 83): `continue`
  without touching `last_seq`.
* `emit f seq`: yield the multipart chunk for frame `f` at sequence number
  `seq` and set `last_seq = seq` (lines 85-86). -/
inductive GenStep where
  | blockedStep : GenStep
  | stopSignal : GenStep
  | retrySignal : GenStep
  | emit : Bytes → Nat → GenStep
  deriving DecidableEq

/-- One decided iteration of `frame_generator` for a session whose cursor is
`last` (Python `last_seq`, sentinel `-1`), at hub snapshot `h`. -/
def frameGeneratorStep (h : HubState) (last : Int) : GenStep :=
  if last = (h.frame_seq : Int) ∧ h.stop_set = false then .blockedStep
  else if h.stop_set then .stopSignal
  else
    match h.latest_original with
    | none => .retrySignal
    | some f => .emit f h.frame_seq

/-- A whole session: run `frame_generator` over the trace of hub snapshots at
which its successive iterations are decided, collecting the `(frame, seq)`
pairs it yields.  `stopSignal` ends the generator; `blockedStep` and
`retrySignal` move to the next snapshot with the cursor unchanged; `emit`
yields and advances the cursor to the yielded sequence number. -/
def frameGeneratorRun : List HubState → Int → List (Bytes × Nat)
  | [], _ => []
  | h :: rest, last =>
    match frameGeneratorStep h last with
    | .stopSignal => []
    | .emit f seq => (f, seq) :: frameGeneratorRun rest (seq : Int)
    | _ => frameGeneratorRun rest last

theorem frameGeneratorStep_stopped (h : HubState) (last : Int)
    (hs : h.stop_set = true) : frameGeneratorStep h last = .stopSignal := by
  unfold frameGeneratorStep
  rw [if_neg, if_pos hs]
  simp [hs]

/-- C3. `stop()` sets the stop flag, is idempotent, and once the flag is
set every decided `frame_generator` iteration — one that was blocked in the
timed wait as well as any future one — returns the stopped signal: the wait
never yields `blockedStep` again, so no consumer blocks indefinitely (the
1-second wait timeout forces the re-check that observes the flag). -/
theorem stop_releases_all_waiters (s : HubState) (last : Int) :
    (stopHub s).stop_set = true ∧
    stopHub (stopHub s) = stopHub s ∧
    frameGeneratorStep (stopHub s) last = .stopSignal := by
  refine ⟨rfl, rfl, frameGeneratorStep_stopped _ _ rfl⟩

theorem frameGeneratorStep_emit_latest (h : HubState) (last : Int)
    (f : Bytes) (seq : Nat) (he : frameGeneratorStep h last = .emit f seq) :
    h.latest_original = some f ∧ seq = h.frame_seq ∧
    h.stop_set = false ∧ last ≠ (h.frame_seq : Int) := by
  unfold frameGeneratorStep at he
  by_cases hb : last = (h.frame_seq : Int) ∧ h.stop_set = false
  · rw [if_pos hb] at he; cases he
  · rw [if_neg hb] at he
    by_cases hs : h.stop_set
    · rw [if_pos hs] at he; cases he
    · rw [if_neg hs] at he
      cases hl : h.latest_original with
      | none => rw [hl] at he; cases he
      | some g =>
          rw [hl] at he
          cases he
          refine ⟨rfl, rfl, by simpa using hs, ?_⟩
          intro hlast
          exact hb ⟨hlast, by simpa using hs⟩

/-- C6. The decided iteration of `frame_generator` is a function of the
hub snapshot and the caller's cursor alone, and whenever two sessions' waits
are both satisfied by the same hub snapshot, both observe the same
`(frame, seq)` pair: the single current frame is broadcast, not handed to
one consumer. -/
theorem wait_broadcasts_same_pair (h : HubState) (l₁ l₂ : Int)
    (f₁ f₂ : Bytes) (s₁ s₂ : Nat)
    (h₁ : frameGeneratorStep h l₁ = .emit f₁ s₁)
    (h₂ : frameGeneratorStep h l₂ = .emit f₂ s₂) :
    f₁ = f₂ ∧ s₁ = s₂ := by
  obtain ⟨e₁, q₁, -, -⟩ := frameGeneratorStep_emit_latest h l₁ f₁ s₁ h₁
  obtain ⟨e₂, q₂, -, -⟩ := frameGeneratorStep_emit_latest h l₂ f₂ s₂ h₂
  refine ⟨?_, q₁.trans q₂.symm⟩
  have := e₁.symm.trans e₂
  exact Option.some.inj this

/-- Witness for C6: after publishing frame `[65]` as sequence 1, two
sessions both at the sentinel cursor `-1` observe the same pair. -/
theorem wait_broadcasts_same_pair_witness :
    frameGeneratorStep ⟨some [65], 1, false⟩ (-1) = .emit [65] 1 ∧
    ([65] : Bytes) = [65] ∧ (1 : Nat) = 1 := by
  refine ⟨by decide, wait_broadcasts_same_pair ⟨some [65], 1, false⟩ (-1) (-1)
    [65] [65] 1 1 (by decide) (by decide)⟩

theorem frameGeneratorRun_cons_stop (h : HubState) (rest : List HubState)
    (last : Int) (hstep : frameGeneratorStep h last = .stopSignal) :
    frameGeneratorRun (h :: rest) last = [] := by
  simp [frameGeneratorRun, hstep]

theorem frameGeneratorRun_cons_emit (h : HubState) (rest : List HubState)
    (last : Int) (f : Bytes) (seq : Nat)
    (hstep : frameGeneratorStep h last = .emit f seq) :
    frameGeneratorRun (h :: rest) last =
      (f, seq) :: frameGeneratorRun rest (seq : Int) := by
  simp [frameGeneratorRun, hstep]

theorem frameGeneratorRun_cons_blocked (h : HubState) (rest : List HubState)
    (last : Int) (hstep : frameGeneratorStep h last = .blockedStep) :
    frameGeneratorRun (h :: rest) last = frameGeneratorRun rest last := by
  simp [frameGeneratorRun, hstep]

theorem frameGeneratorRun_cons_retry (h : HubState) (rest : List HubState)
    (last : Int) (hstep : frameGeneratorStep h last = .retrySignal) :
    frameGeneratorRun (h :: rest) last = frameGeneratorRun rest last := by
  simp [frameGeneratorRun, hstep]

/-- A trace of hub snapshots as the single producer evolves the hub:
`_frame_seq` never decreases from any snapshot to any later one (which is
what `publish` and `stop` guarantee, see `publish_increments_version`). -/
def SeqMono (states : List HubState) : Prop :=
  List.Pairwise (fun a b => a.frame_seq ≤ b.frame_seq) states

/-- C2. Over any monotone trace of hub snapshots, a session whose cursor
`last` is at most every snapshot's `_frame_seq` (true of the sentinel `-1`
and preserved by the session itself) never receives a frame with sequence
number `≤ last`; the sequence numbers it observes are pairwise strictly
increasing — intermediate frames are skipped, never queued — and every
delivered pair is exactly the `(latest_original, frame_seq)` of the snapshot
that satisfied its wait, i.e. the latest published frame at that moment. -/
theorem session_versions_strictly_increase (states : List HubState) (last : Int)
    (hmono : SeqMono states)
    (hlast : ∀ h ∈ states, last ≤ (h.frame_seq : Int)) :
    (∀ p ∈ frameGeneratorRun states last, last < (p.2 : Int)) ∧
    List.Pairwise (fun p q : Bytes × Nat => p.2 < q.2)
      (frameGeneratorRun states last) ∧
    (∀ p ∈ frameGeneratorRun states last,
      ∃ h ∈ states, h.latest_original = some p.1 ∧ h.frame_seq = p.2) := by
  induction states generalizing last with
  | nil => exact ⟨by simp [frameGeneratorRun], by simp [frameGeneratorRun],
      by simp [frameGeneratorRun]⟩
  | cons h rest ih =>
      have hmono' : SeqMono rest := (List.pairwise_cons.mp hmono).2
      have hrel : ∀ h' ∈ rest, h.frame_seq ≤ h'.frame_seq :=
        (List.pairwise_cons.mp hmono).1
      cases hstep : frameGeneratorStep h last with
      | stopSignal =>
          rw [frameGeneratorRun_cons_stop h rest last hstep]
          exact ⟨by simp, by simp, by simp⟩
      | blockedStep =>
          rw [frameGeneratorRun_cons_blocked h rest last hstep]
          obtain ⟨a, b, c⟩ := ih last hmono'
            (fun h' hh' => hlast h' (List.mem_cons_of_mem h hh'))
          refine ⟨a, b, fun p hp => ?_⟩
          obtain ⟨h', hh', hl, hs⟩ := c p hp
          exact ⟨h', List.mem_cons_of_mem h hh', hl, hs⟩
      | retrySignal =>
          rw [frameGeneratorRun_cons_retry h rest last hstep]
          obtain ⟨a, b, c⟩ := ih last hmono'
            (fun h' hh' => hlast h' (List.mem_cons_of_mem h hh'))
          refine ⟨a, b, fun p hp => ?_⟩
          obtain ⟨h', hh', hl, hs⟩ := c p hp
          exact ⟨h', List.mem_cons_of_mem h hh', hl, hs⟩
      | emit f seq =>
          rw [frameGeneratorRun_cons_emit h rest last f seq hstep]
          obtain ⟨hlat, hseq, -, hne⟩ :=
            frameGeneratorStep_emit_latest h last f seq hstep
          have hle : last ≤ (h.frame_seq : Int) := hlast h (List.mem_cons_self h rest)
          have hlt : last < (seq : Int) := by
            rw [hseq]; exact lt_of_le_of_ne hle hne
          have hseqrest : ∀ h' ∈ rest, (seq : Int) ≤ (h'.frame_seq : Int) := by
            intro h' hh'
            exact_mod_cast hseq ▸ hrel h' hh'
          obtain ⟨a, b, c⟩ := ih (seq : Int) hmono' hseqrest
          refine ⟨?_, ?_, ?_⟩
          · intro p hp
            rcases List.mem_cons.mp hp with hp | hp
            · rw [hp]; exact hlt
            · exact lt_trans hlt (a p hp)
          · refine List.pairwise_cons.mpr ⟨fun q hq => ?_, b⟩
            exact_mod_cast a q hq
          · intro p hp
            rcases List.mem_cons.mp hp with hp | hp
            · exact ⟨h, List.mem_cons_self h rest, by rw [hp]; exact hlat,
                by rw [hp]; exact hseq.symm⟩
            · obtain ⟨h', hh', hl, hs⟩ := c p hp
              exact ⟨h', List.mem_cons_of_mem h hh', hl, hs⟩

/-- Witness for C2: a fresh session (cursor `-1`) over the concrete trace
publish `[1]` at seq 1 then publish `[2]` at seq 3. -/
theorem session_versions_strictly_increase_witness :
    (SeqMono [⟨some [1], 1, false⟩, ⟨some [2], 3, false⟩] ∧
      ∀ h ∈ ([⟨some [1], 1, false⟩, ⟨some [2], 3, false⟩] : List HubState),
        (-1 : Int) ≤ (h.frame_seq : Int)) ∧
    ((∀ p ∈ frameGeneratorRun [⟨some [1], 1, false⟩, ⟨some [2], 3, false⟩] (-1),
        (-1 : Int) < (p.2 : Int)) ∧
      List.Pairwise (fun p q : Bytes × Nat => p.2 < q.2)
        (frameGeneratorRun [⟨some [1], 1, false⟩, ⟨some [2], 3, false⟩] (-1)) ∧
      (∀ p ∈ frameGeneratorRun [⟨some [1], 1, false⟩, ⟨some [2], 3, false⟩] (-1),
        ∃ h ∈ ([⟨some [1], 1, false⟩, ⟨some [2], 3, false⟩] : List HubState),
          h.latest_original = some p.1 ∧ h.frame_seq = p.2)) := by
  refine ⟨⟨by unfold SeqMono; decide, by decide⟩,
    session_versions_strictly_increase
      [⟨some [1], 1, false⟩, ⟨some [2], 3, false⟩] (-1)
      (by unfold SeqMono; decide) (by decide)⟩

/-- What the environment hands one iteration of `_loop` (lines 92-115):
`capture_array` raised (line 95), `capture_array` returned `None`
(line 100), `imencode` reported failure (line 105), or capture and encode
both succeeded yielding the buffer `buf` (line 104). -/
inductive CycleEvent where
  | captureFail : CycleEvent
  | captureNone : CycleEvent
  | encodeFail : CycleEvent
  | frameReady : Bytes → CycleEvent
  deriving DecidableEq

/-- One iteration of `_loop`'s `while not self._stop.is_set()` body: the
three failure branches `continue` without touching the hub, and only a
successful capture-and-encode reaches the publish block (lines 109-112).
Once `_stop` is set the loop body no longer runs. -/
def loopCycle (s : HubState) (e : CycleEvent) : HubState :=
  if s.stop_set then s
  else
    match e with
    | .frameReady buf => publish s buf
    | _ => s

/-- Run `_loop` over a sequence of per-iteration events. -/
def runLoop (s : HubState) (es : List CycleEvent) : HubState :=
  es.foldl loopCycle s

theorem loopCycle_failure (s : HubState) (e : CycleEvent)
    (hne : ∀ buf, e ≠ .frameReady buf) : loopCycle s e = s := by
  unfold loopCycle
  by_cases hs : s.stop_set
  · rw [if_pos hs]
  · rw [if_neg hs]
    cases e with
    | frameReady buf => exact absurd rfl (hne buf)
    | captureFail => rfl
    | captureNone => rfl
    | encodeFail => rfl

theorem runLoop_failures (s : HubState) (n : Nat) :
    runLoop s (List.replicate n .captureFail) = s := by
  induction n with
  | zero => rfl
  | succ n ih =>
      show runLoop (loopCycle s .captureFail) (List.replicate n .captureFail) = s
      rw [loopCycle_failure s .captureFail (fun buf h => by cases h)]
      exact ih

theorem runLoop_append (s : HubState) (es fs : List CycleEvent) :
    runLoop s (es ++ fs) = runLoop (runLoop s es) fs := by
  unfold runLoop
  rw [List.foldl_append]

/-- C4. A capture failure, a `None` capture, or an encode failure leaves
the hub exactly as it was — the previous frame stays current and
`_frame_seq` is not incremented — and never sets the stop flag, so the loop
keeps running; and if capture fails `n` consecutive times and then one
capture-and-encode succeeds, the run is exactly one `publish`: `_frame_seq`
rises by exactly 1, on the success, and `_latest_original` is set to the
newly encoded buffer - a frame is published only after a successful
encode. -/
theorem capture_failures_leave_hub_unchanged (s : HubState) (e : CycleEvent)
    (buf : Bytes) (n : Nat) (hne : ∀ b, e ≠ .frameReady b)
    (hrun : s.stop_set = false) :
    loopCycle s e = s ∧
    (loopCycle s e).stop_set = s.stop_set ∧
    runLoop s (List.replicate n .captureFail ++ [.frameReady buf]) =
      publish s buf ∧
    (runLoop s (List.replicate n .captureFail ++ [.frameReady buf])).frame_seq =
      s.frame_seq + 1 := by
  have h1 : loopCycle s e = s := loopCycle_failure s e hne
  have h3 : runLoop s (List.replicate n .captureFail ++ [.frameReady buf]) =
      publish s buf := by
    rw [runLoop_append, runLoop_failures]
    show loopCycle s (.frameReady buf) = publish s buf
    unfold loopCycle
    rw [if_neg (by rw [hrun]; exact Bool.false_ne_true)]
  exact ⟨h1, by rw [h1], h3, by rw [h3]; rfl⟩

/-- Witness for C4: three consecutive capture failures, then a successful
encode of `[9]`, starting from a running hub that already holds `[5]`. -/
theorem capture_failures_leave_hub_unchanged_witness :
    ((∀ b, CycleEvent.captureFail ≠ CycleEvent.frameReady b) ∧
      (⟨some [5], 4, false⟩ : HubState).stop_set = false) ∧
    (loopCycle ⟨some [5], 4, false⟩ .captureFail = ⟨some [5], 4, false⟩ ∧
      (loopCycle ⟨some [5], 4, false⟩ .captureFail).stop_set =
        (⟨some [5], 4, false⟩ : HubState).stop_set ∧
      runLoop ⟨some [5], 4, false⟩
          (List.replicate 3 .captureFail ++ [.frameReady [9]]) =
        publish ⟨some [5], 4, false⟩ [9] ∧
      (runLoop ⟨some [5], 4, false⟩
          (List.replicate 3 .captureFail ++ [.frameReady [9]])).frame_seq =
        (⟨some [5], 4, false⟩ : HubState).frame_seq + 1) := by
  have hne : ∀ b, CycleEvent.captureFail ≠ CycleEvent.frameReady b := by
    intro b h
    cases h
  exact ⟨⟨hne, rfl⟩,
    capture_failures_leave_hub_unchanged ⟨some [5], 4, false⟩ .captureFail [9] 3
      hne rfl⟩

theorem runOps_latest_isSome (ops : List HubOp) (s : HubState)
    (hs : s.latest_original.isSome = true) :
    (runOps s ops).latest_original.isSome = true := by
  induction ops generalizing s with
  | nil => exact hs
  | cons op ops ih =>
      rw [runOps_cons]
      refine ih (applyOp s op) ?_
      cases op with
      | publishOp f => rfl
      | stopOp => exact hs

theorem runOps_published_isSome (ops : List HubOp) (s : HubState) (f0 : Bytes)
    (hmem : HubOp.publishOp f0 ∈ ops) :
    (runOps s ops).latest_original.isSome = true := by
  induction ops generalizing s with
  | nil => cases hmem
  | cons op ops ih =>
      rw [runOps_cons]
      rcases List.mem_cons.mp hmem with hop | hmem'
      · rw [← hop]
        exact runOps_latest_isSome ops (publish s f0) rfl
      · exact ih (applyOp s op) hmem'

/-- C5. A fresh session starts at the sentinel cursor `-1`, which is
below every value of the `Nat`-valued `_frame_seq`; hence on any running hub
reached from the initial state by a history that contains at least one
publish, its first decided wait immediately emits the current
`(latest_original, frame_seq)` — never the blocked, retry (absent-frame) or
stopped outcome. -/
theorem fresh_session_first_wait (ops : List HubOp) (f0 : Bytes)
    (hmem : HubOp.publishOp f0 ∈ ops)
    (hrun : (runOps initHub ops).stop_set = false) :
    ∃ f, (runOps initHub ops).latest_original = some f ∧
      frameGeneratorStep (runOps initHub ops) (-1) =
        .emit f (runOps initHub ops).frame_seq := by
  obtain ⟨f, hf⟩ :=
    Option.isSome_iff_exists.mp (runOps_published_isSome ops initHub f0 hmem)
  refine ⟨f, hf, ?_⟩
  have hneq : (-1 : Int) ≠ ((runOps initHub ops).frame_seq : Int) := by omega
  unfold frameGeneratorStep
  rw [if_neg (fun hc => absurd hc.1 hneq),
    if_neg (by rw [hrun]; exact Bool.false_ne_true), hf]

/-- Witness for C5: the one-publish history `[publishOp [7]]`. -/
theorem fresh_session_first_wait_witness :
    (HubOp.publishOp [7] ∈ [HubOp.publishOp [7]] ∧
      (runOps initHub [HubOp.publishOp [7]]).stop_set = false) ∧
    ∃ f, (runOps initHub [HubOp.publishOp [7]]).latest_original = some f ∧
      frameGeneratorStep (runOps initHub [HubOp.publishOp [7]]) (-1) =
        .emit f (runOps initHub [HubOp.publishOp [7]]).frame_seq := by
  exact ⟨⟨List.mem_cons_self _ _, rfl⟩,
    fresh_session_first_wait [HubOp.publishOp [7]] [7]
      (List.mem_cons_self _ _) rfl⟩

/-- Byte values of an ASCII string, as Python byte literals denote them. -/
def asciiBytes (s : String) : Bytes :=
  s.toList.map Char.toNat

/-- CRLF, the line break of the multipart wire format. -/
def crlf : Bytes := asciiBytes "\r\n"

/-- The boundary marker `b"--frame"` (`frame_generator`, line 72). -/
def boundaryMarker : Bytes := asciiBytes "--frame"

/-- The chunk yielded per new frame (line 86):
`boundary + b"\r\nContent-Type: image/jpeg\r\n\r\n" + frame + b"\r\n"`. -/
def streamChunk (frame : Bytes) : Bytes :=
  boundaryMarker ++ asciiBytes "\r\nContent-Type: image/jpeg\r\n\r\n" ++
    frame ++ crlf

/-- C7. The bytes written for each delivered frame form exactly one
multipart part — the boundary marker, a line break, the content-type header
line for JPEG, an empty line, the raw encoded frame bytes, and a trailing
line break — and on the yield the session stores the delivered sequence
number into `last_seq` (line 85) before looping again. -/
theorem multipart_chunk_well_formed (frame f : Bytes) (h : HubState)
    (rest : List HubState) (last : Int) (seq : Nat)
    (hstep : frameGeneratorStep h last = .emit f seq) :
    streamChunk frame =
      boundaryMarker ++ crlf ++ asciiBytes "Content-Type: image/jpeg" ++
        crlf ++ crlf ++ frame ++ crlf ∧
    frameGeneratorRun (h :: rest) last =
      (f, seq) :: frameGeneratorRun rest (seq : Int) := by
  exact ⟨rfl, frameGeneratorRun_cons_emit h rest last f seq hstep⟩

/-- Witness for C7: a hub holding frame `[255, 0]` at sequence 2 satisfies a
session at cursor 0, which yields that pair and continues from cursor 2. -/
theorem multipart_chunk_well_formed_witness :
    frameGeneratorStep ⟨some [255, 0], 2, false⟩ 0 = .emit [255, 0] 2 ∧
    (streamChunk [255, 0] =
      boundaryMarker ++ crlf ++ asciiBytes "Content-Type: image/jpeg" ++
        crlf ++ crlf ++ [255, 0] ++ crlf ∧
    frameGeneratorRun [⟨some [255, 0], 2, false⟩] 0 =
      ([255, 0], 2) :: frameGeneratorRun [] (2 : Int)) := by
  refine ⟨by decide, multipart_chunk_well_formed [255, 0] [255, 0]
    ⟨some [255, 0], 2, false⟩ [] 0 2 (by decide)⟩

/-- `AppConfig` (lines 14-20): capture interval in seconds, JPEG quality,
bind host and port, debug flag.  The class defaults are 0.5 s, 80,
"0.0.0.0", 8000, False. -/
structure AppConfig where
  capture_interval : Rat
  jpeg_quality : Int
  host : String
  port : Nat
  debug : Bool
  deriving DecidableEq

/-- The dataclass defaults of `AppConfig` (lines 16-20). -/
def defaultAppConfig : AppConfig :=
  ⟨1 / 2, 80, "0.0.0.0", 8000, false⟩

/-- `load_config()` (lines 23-31): the configuration the program actually
runs with. -/
def load_config : AppConfig :=
  ⟨3 / 100, 80, "0.0.0.0", 8000, false⟩

/-- The quality value `_loop` hands to `cv2.imencode` (line 90):
`int(max(10, min(95, self.config.jpeg_quality)))`. -/
def encodeQualityUsed (cfg : AppConfig) : Int :=
  max 10 (min 95 cfg.jpeg_quality)

/-- Counterexample to C8 as stated: jpeg quality 100 is within the spec's
configured range 1..100, yet `_loop` passes 95, not 100, to the encoder. -/
theorem quality_passthrough_fails :
    (1 ≤ (100 : Int) ∧ (100 : Int) ≤ 100) ∧
    encodeQualityUsed ⟨3 / 100, 100, "0.0.0.0", 8000, false⟩ ≠ 100 := by
  refine ⟨⟨by decide, by decide⟩, ?_⟩
  decide

/-- C8 (amended). `_loop` passes the configured jpeg quality to the
encoder clamped to the range 10..95 — `int(max(10, min(95, q)))` — so the
value passed equals the configured value exactly when it lies in 10..95;
in particular the default quality 80 (both the dataclass default and what
`load_config` returns) is passed through unchanged. -/
theorem encode_quality_clamped (cfg : AppConfig)
    (hlo : 10 ≤ cfg.jpeg_quality) (hhi : cfg.jpeg_quality ≤ 95) :
    encodeQualityUsed cfg = cfg.jpeg_quality ∧
    defaultAppConfig.jpeg_quality = 80 ∧
    load_config.jpeg_quality = 80 ∧
    encodeQualityUsed load_config = 80 := by
  refine ⟨?_, rfl, rfl, by decide⟩
  unfold encodeQualityUsed
  omega

/-- Witness for C8 (amended): the running configuration itself, quality 80. -/
theorem encode_quality_clamped_witness :
    (10 ≤ load_config.jpeg_quality ∧ load_config.jpeg_quality ≤ 95) ∧
    (encodeQualityUsed load_config = load_config.jpeg_quality ∧
      defaultAppConfig.jpeg_quality = 80 ∧
      load_config.jpeg_quality = 80 ∧
      encodeQualityUsed load_config = 80) := by
  exact ⟨⟨by decide, by decide⟩,
    encode_quality_clamped load_config (by decide) (by decide)⟩

/-- The landing-page HTML `template` (lines 118-143); `\x7b`/`\x7d`
are the literal brace characters of its inline CSS. -/
def template : String :=
  "<!doctype html>\n<html lang=\"en\">\n<head>\n  <meta charset=\"utf-8\">\n    <title>Live Camera Stream</title>\n  <style>\n    body \x7b font-family: Arial, sans-serif; margin: 20px; background: #f3f3f3; \x7d\n    .wrapper \x7b background: #fff; padding: 16px; border-radius: 8px; box-shadow: 0 2px 6px rgba(0,0,0,0.1); \x7d\n    .images \x7b display: grid; grid-template-columns: repeat(auto-fit, minmax(280px, 1fr)); gap: 16px; margin-top: 12px; \x7d\n    img \x7b width: 100%; border: 1px solid #ddd; border-radius: 6px; background: #fafafa; min-height: 160px; \x7d\n    h1 \x7b margin-bottom: 4px; \x7d\n    p \x7b margin: 0; \x7d\n  </style>\n</head>\n<body>\n    <div class=\"wrapper\">\n    <h1>Camera Monitor</h1>\n    <div class=\"images\">\n      <div>\n        <img id=\"img-original\" src=\"/stream\" alt=\"Original stream\">\n      </div>\n    </div>\n  </div>\n</body>\n</html>\n"

/-- The `img` element of the landing page, whose `src` is the stream
path (line 137). -/
def imgTag : String :=
  "<img id=\"img-original\" src=\"/stream\" alt=\"Original stream\">"

def templateBeforeImg : String :=
  "<!doctype html>\n<html lang=\"en\">\n<head>\n  <meta charset=\"utf-8\">\n    <title>Live Camera Stream</title>\n  <style>\n    body \x7b font-family: Arial, sans-serif; margin: 20px; background: #f3f3f3; \x7d\n    .wrapper \x7b background: #fff; padding: 16px; border-radius: 8px; box-shadow: 0 2px 6px rgba(0,0,0,0.1); \x7d\n    .images \x7b display: grid; grid-template-columns: repeat(auto-fit, minmax(280px, 1fr)); gap: 16px; margin-top: 12px; \x7d\n    img \x7b width: 100%; border: 1px solid #ddd; border-radius: 6px; background: #fafafa; min-height: 160px; \x7d\n    h1 \x7b margin-bottom: 4px; \x7d\n    p \x7b margin: 0; \x7d\n  </style>\n</head>\n<body>\n    <div class=\"wrapper\">\n    <h1>Camera Monitor</h1>\n    <div class=\"images\">\n      <div>\n        "

def templateAfterImg : String :=
  "\n      </div>\n    </div>\n  </div>\n</body>\n</html>\n"

/-- An HTTP response as `SimpleHandler.do_GET` produces it: the status code
sent, the Content-Type header when one is sent, and the body as the list of
byte chunks written to `wfile`. -/
structure HttpResponse where
  status : Nat
  contentType : Option String
  body : List Bytes
  deriving DecidableEq

/-- `SimpleHandler.do_GET` (lines 149-182), as a function of the parsed
request path and of the module-global `service` handle.  The `/stream`
branch commits to the 200 multipart response (status line and Content-Type)
before looking up the handle; with no service registered it returns having
written no body chunk, otherwise it drains `frame_generator()` — a session
starting at cursor `-1` over its trace of decided snapshots — into the
body. -/
def do_GET (path : String) (svc : Option (List HubState)) : HttpResponse :=
  if path = "/" then
    ⟨200, some "text/html; charset=utf-8", [asciiBytes template]⟩
  else if path = "/stream" then
    ⟨200, some "multipart/x-mixed-replace; boundary=frame",
      match svc with
      | none => []
      | some states =>
          (frameGeneratorRun states (-1)).map (fun p => streamChunk p.1)⟩
  else ⟨404, none, []⟩

set_option maxRecDepth 4096 in
theorem template_embeds_img :
    template = templateBeforeImg ++ imgTag ++ templateAfterImg := by
  decide

theorem imgTag_points_at_stream :
    imgTag = "<img id=\x22img-original\x22 src=\x22" ++ "/stream" ++
      "\x22 alt=\x22Original stream\x22>" := by
  decide

/-- C9. Routing of `do_GET`: path `/` yields 200 with content type
`text/html` and the landing page, whose markup embeds the `img` element
whose `src` is `/stream`; path `/stream` yields 200 with content type
`multipart/x-mixed-replace; boundary=frame` and a body that is a sequence
of multipart parts (one `streamChunk` per delivered frame); every other
path yields 404. -/
theorem http_get_routing (svc : Option (List HubState))
    (states : List HubState) (path : String)
    (h1 : path ≠ "/") (h2 : path ≠ "/stream") :
    (do_GET "/" svc).status = 200 ∧
    (do_GET "/" svc).contentType = some "text/html; charset=utf-8" ∧
    (do_GET "/" svc).body = [asciiBytes template] ∧
    template = templateBeforeImg ++ imgTag ++ templateAfterImg ∧
    imgTag = "<img id=\x22img-original\x22 src=\x22" ++ "/stream" ++
      "\x22 alt=\x22Original stream\x22>" ∧
    (do_GET "/stream" svc).status = 200 ∧
    (do_GET "/stream" svc).contentType =
      some "multipart/x-mixed-replace; boundary=frame" ∧
    (do_GET "/stream" (some states)).body =
      (frameGeneratorRun states (-1)).map (fun p => streamChunk p.1) ∧
    (do_GET path svc).status = 404 := by
  refine ⟨rfl, rfl, rfl, template_embeds_img, imgTag_points_at_stream,
    ?_, ?_, ?_, ?_⟩
  · cases svc <;> rfl
  · cases svc <;> rfl
  · rfl
  · unfold do_GET
    rw [if_neg h1, if_neg h2]

/-- Witness for C9: the unrouted path `/x` with no registered service. -/
theorem http_get_routing_witness :
    (("/x" : String) ≠ "/" ∧ ("/x" : String) ≠ "/stream") ∧
    (do_GET "/x" none).status = 404 := by
  refine ⟨⟨by decide, by decide⟩,
    (http_get_routing none [] "/x" (by decide) (by decide)).2.2.2.2.2.2.2.2⟩

/-- C10. With no service registered in the module-global handle, a
`GET /stream` request is still answered with status 200 and the multipart
content type — the handler commits to the stream response before the
`svc is None` check (lines 163-171) — and the response body is empty; in
particular the status is not 404. -/
theorem stream_without_service_commits_200 :
    do_GET "/stream" none =
      ⟨200, some "multipart/x-mixed-replace; boundary=frame", []⟩ ∧
    (do_GET "/stream" none).status ≠ 404 := by
  exact ⟨rfl, by decide⟩
